import Mathlib

/-!
Shallow embedding of the apt dependency-graph visualizer
(src/repository.py, src/visualizer.py, and the graph engine of the
spec, whose source file graph_builder.py is not part of src/).

Python strings are modelled as Lean `String` (a list of characters),
Python dicts as insertion-ordered association lists, and I/O effects
as explicit traces of an `Eff` inductive.  Fallible operations return
`Except`.  All definitions are executable.
-/

deriving instance DecidableEq for Except

/-- Python `str` whitespace characters (the ASCII ones relevant to
`str.strip()` on repository data). -/
def pyIsSpace (c : Char) : Bool :=
  c == ' ' || c == '\t' || c == '\n' || c == '\r' || c == '\x0b' || c == '\x0c'

/-- Python `str.strip()` on a character list: drop whitespace at both ends. -/
def pyStripList (cs : List Char) : List Char :=
  ((cs.dropWhile pyIsSpace).reverse.dropWhile pyIsSpace).reverse

/-- Python `str.strip()`. -/
def pyStrip (s : String) : String :=
  ⟨pyStripList s.toList⟩

/-- Python `str.split(c)` for a one-character separator: auxiliary scanner,
`acc` holds the current fragment reversed. -/
def pySplitAux (c : Char) : List Char → List Char → List String
  | [], acc => [⟨acc.reverse⟩]
  | x :: t, acc =>
    if x == c then ⟨acc.reverse⟩ :: pySplitAux c t []
    else pySplitAux c t (x :: acc)

/-- Python `str.split(c)` for a one-character separator
(`"".split(c) = [""]`, trailing separators produce empty fragments). -/
def pySplit (c : Char) (s : String) : List String :=
  pySplitAux c s.toList []

/-- Python `sep.join(parts)`. -/
def pyJoin (sep : String) : List String → String
  | [] => ""
  | x :: t => t.foldl (fun acc y => acc ++ sep ++ y) x

/-- Python `str.lower()` (ASCII case folding, as used on file extensions). -/
def pyLower (s : String) : String :=
  ⟨s.toList.map Char.toLower⟩

/-- Python `s.endswith(suffix)`. -/
def pyEndsWith (s sfx : String) : Bool :=
  sfx.toList.isSuffixOf s.toList

/-- Python format padding `f"{s:<n}"`: pad `s` with spaces on the right
to width `n` (in characters). -/
def pyPadR (s : String) (n : Nat) : String :=
  s ++ ⟨List.replicate (n - s.length) ' '⟩

/-- An insertion-ordered dictionary lookup (`dict.get`): first binding wins. -/
def dictGet {α : Type} (d : List (String × α)) (k : String) : Option α :=
  (d.find? (fun p => p.fst == k)).map Prod.snd

/-- Python `d[k] = v`: replace the value in place when the key exists
(keeping its position, as Python dicts do), else append the binding. -/
def dictInsert {α : Type} (d : List (String × α)) (k : String) (v : α) :
    List (String × α) :=
  match d with
  | [] => [(k, v)]
  | (k', v') :: t =>
    if k' == k then (k, v) :: t else (k', v') :: dictInsert t k v

/-- Python `d[k] = f(d[k])` (used for `current_package[field] += ...`):
update the value at `k` in place; a missing key leaves `d` unchanged. -/
def dictUpdate {α : Type} (d : List (String × α)) (k : String) (f : α → α) :
    List (String × α) :=
  match d with
  | [] => []
  | (k', v') :: t =>
    if k' == k then (k', f v') :: t else (k', v') :: dictUpdate t k f

/-- A parsed package record: the per-package field dictionary built by
`parse_packages` (field name to field value, insertion-ordered). -/
abbrev Rec := List (String × String)

/-! ## repository.py : PackageRepository -/

/-- Observable effects of a run: stdout lines, stderr lines, URL reads,
local file reads, file writes (never produced by this program) and the
traceback dump of the generic exception handler. -/
inductive Eff where
  | out (s : String)
  | err (s : String)
  | urlRead (url : String)
  | fileRead (path : String)
  | fileWrite (path : String)
  | traceback
  deriving DecidableEq, Repr

/-- repository.py line 68-71, `_construct_packages_url`: helper for the
trailing-slash test `base_url.endswith('/')`. -/
def endsWithSlash (s : String) : Bool :=
  match s.toList.reverse with
  | [] => false
  | c :: _ => c == '/'

/-- Python `str.rstrip('/')`: drop all trailing `/` characters. -/
def pyRstripSlash (s : String) : String :=
  ⟨(s.toList.reverse.dropWhile (fun c => c == '/')).reverse⟩

/-- repository.py line 66-71, `_construct_packages_url`: strip trailing
slashes (only attempted when the URL ends with one) and append the fixed
`dists/jammy/main/binary-amd64/Packages.gz` path. -/
def construct_packages_url (base_url : String) : String :=
  let b := if endsWithSlash base_url then pyRstripSlash base_url else base_url
  b ++ "/dists/jammy/main/binary-amd64/Packages.gz"

/-- State of `parse_packages`' line loop: the committed packages dict,
the record being accumulated, and the last field name seen (for
continuation lines). -/
structure ParseState where
  packages : List (String × Rec)
  current : Rec
  current_field : Option String
  deriving DecidableEq, Repr

/-- Python `line.startswith(' ')`. -/
def startsWithSpace (s : String) : Bool :=
  match s.toList with
  | [] => false
  | c :: _ => c == ' '

/-- Python `field, value = line.split(':', 1)`: the part before the first
colon and the part after it. -/
def splitColonOnce (s : String) : String × String :=
  (⟨s.toList.takeWhile (fun c => !(c == ':'))⟩,
   ⟨(s.toList.dropWhile (fun c => !(c == ':'))).tail⟩)

/-- repository.py line 87-106, the body of `parse_packages`' loop for one
line: a blank line commits the pending record when it has a `Package`
field; a leading-space line continues the previous field; a line with a
colon starts a new field; anything else is ignored. -/
def parseLine (st : ParseState) (line : String) : ParseState :=
  if pyStrip line = "" then
    match dictGet st.current "Package" with
    | some pkg_name =>
      { packages := dictInsert st.packages pkg_name st.current,
        current := [], current_field := none }
    | none => { packages := st.packages, current := [], current_field := none }
  else if startsWithSpace line then
    match st.current_field with
    | some f =>
      { st with current := dictUpdate st.current f (fun v => v ++ "\n" ++ pyStrip line) }
    | none => st
  else if ':' ∈ line.toList then
    let fv := splitColonOnce line
    let f := pyStrip fv.fst
    let v := pyStrip fv.snd
    { st with current := dictInsert st.current f v, current_field := some f }
  else st

/-- repository.py line 73-108, `parse_packages` over an explicit list of
lines (the result of splitting the data on newlines): fold the line loop
and return the committed packages; a pending, uncommitted record is
discarded. -/
def parsePackagesLines (ls : List String) : List (String × Rec) :=
  (ls.foldl parseLine ⟨[], [], none⟩).packages

/-- repository.py line 73-108, `parse_packages`: split the file on
newlines and run the line loop. -/
def parse_packages (packages_data : String) : List (String × Rec) :=
  parsePackagesLines (pySplit '\n' packages_data)

/-- repository.py line 14-27, class `PackageRepository`: the constructor
stores the URL, the test-mode flag and an empty owned cache. -/
structure PackageRepository where
  repository_url : String
  test_mode : Bool
  packages_cache : List (String × Rec)
  deriving DecidableEq, Repr

/-- repository.py line 17-27, `PackageRepository.__init__`. -/
def PackageRepository.init (repository_url : String) (tm : Bool) :
    PackageRepository :=
  { repository_url := repository_url, test_mode := tm, packages_cache := [] }

/-- repository.py line 29-64, `fetch_packages_file`: in test mode read the
local file, otherwise print the download banner and read the constructed
URL.  The external world `w` supplies the raw content or a raw error
message; errors are re-raised with the source's wrapper messages (the
`FileNotFoundError` variant of `_read_local_file` differs only in its
message text and is subsumed by the generic wrapper here). -/
def fetch_packages_file (w : Except String String) (repo : PackageRepository) :
    Except String String × List Eff :=
  if repo.test_mode then
    (match w with
     | .ok data => .ok data
     | .error e => .error ("Ошибка чтения файла: " ++ e),
     [.fileRead repo.repository_url])
  else
    let packages_url := construct_packages_url repo.repository_url
    (match w with
     | .ok data => .ok data
     | .error e => .error ("Ошибка загрузки репозитория: " ++ e),
     [.out ("Загрузка данных из: " ++ packages_url), .urlRead packages_url])

/-- repository.py line 110-124, `get_package_info`: fill the cache by
fetching and parsing when it is empty, then look the package up in the
cache.  Returns the looked-up record, the updated repository state and
the effect trace; a fetch failure propagates as the raised exception. -/
def get_package_info (w : Except String String) (repo : PackageRepository)
    (package_name : String) :
    Except String (Option Rec × PackageRepository) × List Eff :=
  if repo.packages_cache = [] then
    match fetch_packages_file w repo with
    | (.error e, tr) => (.error e, tr)
    | (.ok data, tr) =>
      let cache := parse_packages data
      (.ok (dictGet cache package_name, { repo with packages_cache := cache }), tr)
  else
    (.ok (dictGet repo.packages_cache package_name, repo), [])

/-- repository.py line 148-156, the body of `get_dependencies`' loop for
one comma-separated element: strip it, delete every
`\s*\([^)]*\)` group (auxiliary `parenChunk`/`pySubParenAux` below), and
keep only the part before the first `|`, stripped. -/
def parenChunk (cs : List Char) : Option (List Char) :=
  match cs.dropWhile pyIsSpace with
  | '(' :: t =>
    match t.dropWhile (fun c => !(c == ')')) with
    | _ :: r => some r
    | [] => none
  | _ => none

/-- One step of `re.sub(r'\s*\([^)]*\)', '', s)`: if a match of the
pattern starts here, skip it, else emit one character; the fuel starts at
the string length, which bounds the number of steps since every step
consumes at least one character. -/
def pySubParenAux : Nat → List Char → List Char
  | 0, cs => cs
  | fuel + 1, cs =>
    match parenChunk cs with
    | some r => pySubParenAux fuel r
    | none =>
      match cs with
      | [] => []
      | c :: t => c :: pySubParenAux fuel t

/-- Python `re.sub(r'\s*\([^)]*\)', '', s)`: delete every whitespace run
immediately followed by a parenthesized group (up to the first `)`). -/
def pySubParen (s : String) : String :=
  ⟨pySubParenAux s.toList.length s.toList⟩

/-- repository.py line 149-153: normalization of one dependency element
(`dep.strip()`, the regex substitution, and `dep.split('|')[0].strip()`
when an alternative group is present). -/
def pyDepNormalize (dep : String) : String :=
  let d1 := pyStrip dep
  let d2 := pySubParen d1
  if '|' ∈ d2.toList then pyStrip ⟨d2.toList.takeWhile (fun c => !(c == '|'))⟩
  else d2

/-- repository.py line 146-158: the accumulation loop of
`get_dependencies` over the comma-split `Depends` value (append each
normalized element unless it became empty). -/
def parseDependsField (depends_str : String) : List String :=
  (pySplit ',' depends_str).foldl
    (fun acc dep =>
      let d := pyDepNormalize dep
      if d = "" then acc else acc ++ [d])
    []

/-- repository.py line 126-158, `get_dependencies`: look the package up
(filling the cache when needed); a missing or falsy record, or a missing
or empty `Depends` field, yields `[]`; otherwise parse the `Depends`
value. -/
def get_dependencies (w : Except String String) (repo : PackageRepository)
    (package_name : String) :
    Except String (List String × PackageRepository) × List Eff :=
  match get_package_info w repo package_name with
  | (.error e, tr) => (.error e, tr)
  | (.ok (package_info, repo'), tr) =>
    match package_info with
    | none => (.ok ([], repo'), tr)
    | some info =>
      if info = [] then (.ok ([], repo'), tr)
      else
        let depends_str := (dictGet info "Depends").getD ""
        if depends_str = "" then (.ok ([], repo'), tr)
        else (.ok (parseDependsField depends_str, repo'), tr)

/-- repository.py line 160-171, `get_all_packages`: fill the cache when
empty, then list the cached package names. -/
def get_all_packages (w : Except String String) (repo : PackageRepository) :
    Except String (List String × PackageRepository) × List Eff :=
  if repo.packages_cache = [] then
    match fetch_packages_file w repo with
    | (.error e, tr) => (.error e, tr)
    | (.ok data, tr) =>
      let cache := parse_packages data
      (.ok (cache.map Prod.fst, { repo with packages_cache := cache }), tr)
  else
    (.ok (repo.packages_cache.map Prod.fst, repo), [])


/-! ## visualizer.py : CLI argument validation and configuration report -/

/-- visualizer.py line 34-63: the four parsed command-line arguments
(`argparse` itself is external; `main` receives the parsed object). -/
structure Args where
  package : String
  repository : String
  test_mode : Bool
  output : String
  deriving DecidableEq, Repr

/-- visualizer.py line 89, `valid_extensions`. -/
def valid_extensions : List String := [".png", ".svg", ".jpg", ".jpeg"]

/-- visualizer.py line 68-97, `validate_arguments`: collect one error
line per failed check (empty/whitespace package, empty/whitespace
repository, output extension not in `valid_extensions`,
case-insensitively) and raise `ValueError` with the newline-joined
message when any check failed. -/
def validate_arguments (args : Args) : Except String Unit :=
  let errors : List String := []
  let errors :=
    if args.package = "" ∨ (pyStrip args.package).length = 0 then
      errors ++ ["Имя пакета не может быть пустым"]
    else errors
  let errors :=
    if args.repository = "" ∨ (pyStrip args.repository).length = 0 then
      errors ++ ["URL или путь к репозиторию не может быть пустым"]
    else errors
  let errors :=
    if (valid_extensions.any fun ext => pyEndsWith (pyLower args.output) ext) = false then
      errors ++ ["Имя выходного файла должно иметь одно из расширений: " ++
                 pyJoin ", " valid_extensions]
    else errors
  if errors = [] then Except.ok () else Except.error (pyJoin "\n" errors)

/-- A line of 60 equals signs (`"=" * 60`). -/
def hr60 : String := ⟨List.replicate 60 '='⟩

/-- A line of 60 dashes (`"-" * 60`). -/
def dash60 : String := ⟨List.replicate 60 '-'⟩

/-- visualizer.py line 100-116, `print_configuration`: the key-value
configuration table printed to stdout. -/
def print_configuration (args : Args) : List Eff :=
  [.out hr60,
   .out "КОНФИГУРАЦИЯ ПРИЛОЖЕНИЯ",
   .out hr60,
   .out (pyPadR "Параметр" 30 ++ " | " ++ "Значение"),
   .out dash60,
   .out (pyPadR "Имя пакета" 30 ++ " | " ++ args.package),
   .out (pyPadR "Репозиторий" 30 ++ " | " ++ args.repository),
   .out (pyPadR "Режим тестирования" 30 ++ " | " ++
         (if args.test_mode then "Включён" else "Выключен")),
   .out (pyPadR "Выходной файл" 30 ++ " | " ++ args.output),
   .out hr60]

/-! ## Graph engine (graph_builder.py, not under src/)

Modelled from the spec: `graph_builder.py` (class `DependencyGraph` with
`build_graph_dfs`, `print_graph`, `get_statistics`, `has_cycles`,
`get_cycles`, `get_all_dependencies`) is imported by visualizer.py but
its source is not part of src/; the definitions below follow spec
sections 3, 4.1 and 8: a depth-first walk with a processed set, an
ordered current path, an insertion-ordered adjacency map, and cycle
records that slice the path from the back-edge target through the
current node, closed by repeating the target. -/

/-- Modelled from the spec: the graph engine's state (spec section 3) —
insertion-ordered adjacency entries, the fully-processed set, the
ordered current DFS path, and the recorded cycles. -/
structure GraphState where
  adjacency : List (String × List String)
  processed : List String
  path : List String
  cycles : List (List String)
  deriving DecidableEq, Repr

/-- Modelled from the spec (section 3, cycle record / section 9,
cycle-path reconstruction): the sub-path from the first occurrence of
`n` on the current path through the current node, closed by `n`. -/
def cyclePath (path : List String) (n : String) : List String :=
  (path.dropWhile fun x => !(x == n)) ++ [n]

/-- Modelled from the spec (sections 4.1 and 9): one-step work-stack
depth-first traversal.  Each frame holds a node and its dependencies not
yet visited; a processed target is skipped, a target on the path records
a cycle without recursing, a new target is expanded with its resolver
list; an exhausted frame pops its node from the path and marks it
processed.  The fuel only bounds the number of steps (the Python
recursion would raise `RecursionError` when too deep). -/
def runDfs (R : String → List String) :
    Nat → List (String × List String) → GraphState → Option GraphState
  | 0, _, _ => none
  | _ + 1, [], st => some st
  | fuel + 1, (n, []) :: rest, st =>
    runDfs R fuel rest
      { st with path := st.path.dropLast, processed := st.processed ++ [n] }
  | fuel + 1, (n, d :: ds) :: rest, st =>
    if d ∈ st.processed then runDfs R fuel ((n, ds) :: rest) st
    else if d ∈ st.path then
      runDfs R fuel ((n, ds) :: rest)
        { st with cycles := st.cycles ++ [cyclePath st.path d] }
    else
      runDfs R fuel ((d, R d) :: (n, ds) :: rest)
        { st with adjacency := st.adjacency ++ [(d, R d)],
                  path := st.path ++ [d] }

/-- Modelled from the spec (section 4.1, `BuildGraph`): start the
traversal at the root, which is pinned to exist as an adjacency entry
regardless of resolver knowledge. -/
def build_graph_dfs (R : String → List String) (fuel : Nat) (root : String) :
    Option GraphState :=
  runDfs R fuel [(root, R root)]
    { adjacency := [(root, R root)], processed := [], path := [root], cycles := [] }

/-- Modelled from the spec (section 4, `HasCycles`): true iff the
recorded cycle list is non-empty. -/
def has_cycles (g : GraphState) : Bool :=
  !g.cycles.isEmpty

/-- Modelled from the spec (section 3, statistics snapshot). -/
structure StatsSnapshot where
  total_packages : Nat
  total_edges : Nat
  leaf_packages_count : Nat
  max_dependencies_package : Option String
  max_dependencies_count : Nat
  cycles_count : Nat
  deriving DecidableEq, Repr

/-- Modelled from the spec (section 4, `Statistics`): node count, summed
adjacency-list lengths (duplicates counted), leaf count, the
first-encountered maximum-out-degree node, and the cycle count. -/
def get_statistics (g : GraphState) : StatsSnapshot :=
  let maxp := g.adjacency.foldl
    (fun acc p =>
      match acc with
      | none => some (p.fst, p.snd.length)
      | some q => if p.snd.length > q.snd then some (p.fst, p.snd.length) else acc)
    none
  { total_packages := g.adjacency.length,
    total_edges := (g.adjacency.map fun p => p.snd.length).sum,
    leaf_packages_count := (g.adjacency.filter fun p => p.snd = []).length,
    max_dependencies_package := maxp.map Prod.fst,
    max_dependencies_count := (maxp.map Prod.snd).getD 0,
    cycles_count := g.cycles.length }

/-- Modelled from the spec (section 6, textual rendering): one stdout
line per node, `name: dep1, dep2, ...`, in adjacency insertion order. -/
def print_graph (g : GraphState) : List Eff :=
  g.adjacency.map fun p => .out (p.fst ++ ": " ++ pyJoin ", " p.snd)

/-- Modelled from the spec (section 4, `AllDependencies`): reachability
worklist over the already-built adjacency map, marking visited nodes;
the fuel passed by `get_all_dependencies` bounds the work (visited
nodes plus total edges), so it never runs out there. -/
def reachAux (adj : List (String × List String)) :
    Nat → List String → List String → List String
  | 0, visited, _ => visited
  | _ + 1, visited, [] => visited
  | fuel + 1, visited, x :: rest =>
    if x ∈ visited then reachAux adj fuel visited rest
    else reachAux adj fuel (visited ++ [x]) (rest ++ (dictGet adj x).getD [])

/-- Modelled from the spec (section 4, `AllDependencies`): every package
reachable from `pkg` over the built graph, excluding `pkg` itself; an
unvisited `pkg` yields the empty result. -/
def get_all_dependencies (g : GraphState) (pkg : String) : List String :=
  let bound := 1 + g.adjacency.length +
    (g.adjacency.map fun p => p.snd.length).sum +
    ((dictGet g.adjacency pkg).getD []).length
  (reachAux g.adjacency bound [] ((dictGet g.adjacency pkg).getD [])).filter
    fun x => !(x == pkg)

/-- repository.py line 126-158 restated as a pure function of a cached
snapshot: what `get_dependencies` returns once `packages_cache` is
non-empty (the resolver the graph engine consumes). -/
def cacheDeps (repo : PackageRepository) (package_name : String) : List String :=
  match dictGet repo.packages_cache package_name with
  | none => []
  | some info =>
    if info = [] then []
    else
      let depends_str := (dictGet info "Depends").getD ""
      if depends_str = "" then [] else parseDependsField depends_str

/-! ## visualizer.py : main -/

/-- visualizer.py line 220-225, the generic exception handler: the two
stderr diagnostic lines and the traceback dump. -/
def unexpectedErr (e : String) : List Eff :=
  [.err "\n✗ НЕПРЕДВИДЕННАЯ ОШИБКА:", .err e, .traceback]

/-- visualizer.py line 163-164: the numbered direct-dependency lines. -/
def enumLines (deps : List String) : List Eff :=
  deps.enum.map fun p => .out ("  " ++ toString (p.fst + 1) ++ ". " ++ p.snd)

/-- visualizer.py line 200-201: the numbered cycle report lines. -/
def cycleLines (cycles : List (List String)) : List Eff :=
  cycles.enum.map fun p =>
    .out ("  Цикл " ++ toString (p.fst + 1) ++ ": " ++ pyJoin " → " p.snd)

/-- Python truthiness of `package_info` in `if not package_info:`:
`None` and the empty dict are falsy. -/
def pyTruthyRec (o : Option Rec) : Bool :=
  match o with
  | none => false
  | some r => !(r = [])

/-- visualizer.py line 119-225, `main` (named `main'` here since Lean reserves `main`), for already-parsed arguments:
returns the exit code and the effect trace.  The external world `w`
feeds the repository fetch; `fuel` bounds the DFS steps (exhaustion
models Python's `RecursionError`, caught by the generic handler).
Stage order, branch structure and messages follow the source; the graph
phase uses the spec-modelled engine with the repository's
`get_dependencies` (a pure cache lookup at that point) as resolver. -/
def main' (args : Args) (w : Except String String) (fuel : Nat) :
    Nat × List Eff :=
  match validate_arguments args with
  | .error e => (1, [.err "\n✗ ОШИБКА ВАЛИДАЦИИ:", .err e])
  | .ok _ =>
    let t1 := print_configuration args ++
      [.out ("\n" ++ hr60), .out "ЭТАП 2: СБОР ДАННЫХ О ЗАВИСИМОСТЯХ", .out hr60]
    let repo := PackageRepository.init args.repository args.test_mode
    let t2 := t1 ++ [.out ("\nПоиск пакета \x27" ++ args.package ++ "\x27...")]
    match get_package_info w repo args.package with
    | (.error e, ft) => (2, t2 ++ ft ++ unexpectedErr e)
    | (.ok (package_info, repo1), ft) =>
      let t3 := t2 ++ ft
      match package_info with
      | none =>
        (1, t3 ++ [.out ("✗ Пакет \x27" ++ args.package ++ "\x27 не найден в репозитории")])
      | some info =>
        if info = [] then
          (1, t3 ++ [.out ("✗ Пакет \x27" ++ args.package ++ "\x27 не найден в репозитории")])
        else
          let t4 := t3 ++
            [.out "✓ Пакет найден!",
             .out ("  Версия: " ++ (dictGet info "Version").getD "неизвестно"),
             .out ("  Архитектура: " ++ (dictGet info "Architecture").getD "неизвестно")]
          match get_dependencies w repo1 args.package with
          | (.error e, dt) => (2, t4 ++ dt ++ unexpectedErr e)
          | (.ok (dependencies, repo2), dt) =>
            let t5 := t4 ++ dt ++
              [.out ("\n✓ Найдено прямых зависимостей: " ++ toString dependencies.length)]
            let t6 := t5 ++
              (if dependencies = [] then []
               else .out "\nСписок прямых зависимостей:" :: enumLines dependencies)
            let t7 := t6 ++
              [.out ("\n" ++ hr60),
               .out "ЭТАП 3: ПОСТРОЕНИЕ ГРАФА ЗАВИСИМОСТЕЙ (DFS с рекурсией)",
               .out hr60,
               .out ("\nНачинаем построение графа для пакета \x27" ++ args.package ++ "\x27...\n")]
            match build_graph_dfs (cacheDeps repo2) fuel args.package with
            | none => (2, t7 ++ unexpectedErr "maximum recursion depth exceeded")
            | some g =>
              let stats := get_statistics g
              let t8 := t7 ++ print_graph g ++
                [.out ("\n" ++ hr60), .out "СТАТИСТИКА ГРАФА", .out hr60,
                 .out ("Всего пакетов в графе: " ++ toString stats.total_packages),
                 .out ("Всего связей (зависимостей): " ++ toString stats.total_edges),
                 .out ("Пакетов без зависимостей (листья): " ++ toString stats.leaf_packages_count)]
              let t9 := t8 ++
                (match stats.max_dependencies_package with
                 | some m =>
                   if m = "" then []
                   else [.out "Пакет с максимальным количеством зависимостей:",
                         .out ("  → " ++ m ++ " (" ++ toString stats.max_dependencies_count ++ " зависимостей)")]
                 | none => [])
              let t10 := t9 ++
                (if has_cycles g then
                   [.out "\n⚠ ВНИМАНИЕ: Обнаружены циклические зависимости!",
                    .out ("Количество циклов: " ++ toString stats.cycles_count),
                    .out "\nНайденные циклы:"] ++ cycleLines g.cycles
                 else [.out "\n✓ Циклических зависимостей не обнаружено"])
              let all_deps := get_all_dependencies g args.package
              let t11 := t10 ++
                [.out ("\nВсего транзитивных зависимостей для \x27" ++ args.package ++
                       "\x27: " ++ toString all_deps.length),
                 .out ("\n" ++ hr60), .out "✓ Этап 3: Граф успешно построен!", .out hr60]
              (0, t11)

/-! ## Claim-side definitions and concrete fixtures -/

/-- The per-check error lines of `validate_arguments`, selected by the
three conditions of the claim (empty/whitespace-only package,
empty/whitespace-only repository, invalid output extension), in the
source's check order: the raised message is their newline join. -/
def failed_checks (args : Args) : List String :=
  (if pyStrip args.package = "" then ["Имя пакета не может быть пустым"] else []) ++
  (if pyStrip args.repository = "" then ["URL или путь к репозиторию не может быть пустым"] else []) ++
  (if (valid_extensions.any fun ext => pyEndsWith (pyLower args.output) ext) = true then []
   else ["Имя выходного файла должно иметь одно из расширений: " ++
         pyJoin ", " valid_extensions])

/-- True for every effect except a file write. -/
def notWrite (e : Eff) : Bool :=
  match e with
  | .fileWrite _ => false
  | _ => true

/-- A trace containing no file-write effect. -/
def NoWrites (l : List Eff) : Prop :=
  ∀ e ∈ l, notWrite e = true

/-- The three-package cyclic resolver of spec section 8:
`A→B, B→C, C→A`, everything else empty. -/
def resolverABC : String → List String := fun n =>
  if n = "A" then ["B"] else if n = "B" then ["C"] else if n = "C" then ["A"] else []

/-- Concrete cached record for the C1 witness. -/
def recW1 : Rec := [("Package", "vim"), ("Depends", "libc6 (>= 2.34), nano | ed")]

/-- Concrete repository snapshot for the C1 witness. -/
def repoW1 : PackageRepository :=
  { repository_url := "http://u", test_mode := false, packages_cache := [("vim", recW1)] }

/-- Concrete repository snapshot for the C2 witness. -/
def repoW2 : PackageRepository :=
  { repository_url := "http://u", test_mode := false,
    packages_cache := [("a", [("Package", "a")])] }

/-- Concrete repository snapshot for the C3 witness. -/
def repoW3 : PackageRepository :=
  { repository_url := "u", test_mode := true,
    packages_cache := [("z", [("Package", "z")])] }

/-- Concrete repository snapshot for the C6 witness. -/
def repoW6 : PackageRepository :=
  { repository_url := "u", test_mode := true,
    packages_cache := [("b", [("Package", "b"), ("Depends", "c")])] }

/-- Concrete arguments (invalid output extension) for the C7 witness. -/
def argsW7 : Args :=
  { package := "vim", repository := "http://r", test_mode := false, output := "graph.txt" }

/-- The final engine state that `build_graph_dfs` reaches on
`resolverABC` from root `A` (used by C4). -/
def dfsResultABC : GraphState :=
  { adjacency := [("A", ["B"]), ("B", ["C"]), ("C", ["A"])],
    processed := ["C", "B", "A"], path := [], cycles := [["A", "B", "C", "A"]] }

/-! ## Helper lemmas -/

lemma cache_nonempty_gpi (w : Except String String) (repo : PackageRepository)
    (n : String) (hc : repo.packages_cache ≠ []) :
    get_package_info w repo n = (.ok (dictGet repo.packages_cache n, repo), []) := by
  unfold get_package_info
  rw [if_neg hc]

lemma cache_nonempty_gdeps (w : Except String String) (repo : PackageRepository)
    (n : String) (hc : repo.packages_cache ≠ []) :
    get_dependencies w repo n = (.ok (cacheDeps repo n, repo), []) := by
  unfold get_dependencies cacheDeps
  rw [cache_nonempty_gpi w repo n hc]
  rcases h : dictGet repo.packages_cache n with _ | info
  · rfl
  · by_cases hi : info = []
    · simp [hi]
    · by_cases hd : (dictGet info "Depends").getD "" = ""
      · simp [hi, hd]
      · simp [hi, hd]

lemma cache_nonempty_gall (w : Except String String) (repo : PackageRepository)
    (hc : repo.packages_cache ≠ []) :
    get_all_packages w repo = (.ok (repo.packages_cache.map Prod.fst, repo), []) := by
  unfold get_all_packages
  rw [if_neg hc]

lemma foldl_dep_step (l : List String) (acc : List String) :
    l.foldl
      (fun acc dep =>
        let d := pyDepNormalize dep
        if d = "" then acc else acc ++ [d]) acc
    = acc ++ (l.map pyDepNormalize).filter (fun x => x != "") := by
  induction l generalizing acc with
  | nil => simp
  | cons x t ih =>
    simp only [List.foldl_cons, List.map_cons, List.filter_cons]
    by_cases hx : pyDepNormalize x = ""
    · simp [hx, ih]
    · simp [hx, ih]

lemma parseDependsField_eq (d : String) :
    parseDependsField d =
      ((pySplit ',' d).map pyDepNormalize).filter (fun x => x != "") := by
  unfold parseDependsField
  simpa using foldl_dep_step (pySplit ',' d) []

/-! ## Claims C1, C2, C3, C6 -/

/-- C1: for every package name present in the parsed repository cache
whose record has a non-empty `Depends` field, `get_dependencies` returns
exactly one name per comma-separated element of that field, in the
field's order — each element with any parenthesized version constraint
removed and only the first alternative of a `|` group kept
(`pyDepNormalize`) — with elements that became empty dropped and
duplicates preserved (a plain `map` then `filter`, no deduplication). -/
theorem claim1_direct_dependency_parsing
    (w : Except String String) (repo : PackageRepository) (name : String)
    (info : Rec) (d : String)
    (hc : repo.packages_cache ≠ [])
    (hi : dictGet repo.packages_cache name = some info)
    (hd : dictGet info "Depends" = some d)
    (hne : d ≠ "") :
    get_dependencies w repo name =
      (.ok (((pySplit ',' d).map pyDepNormalize).filter (fun x => x != ""), repo), []) := by
  have hinfo : info ≠ [] := by
    intro h
    rw [h] at hd
    simp [dictGet] at hd
  rw [cache_nonempty_gdeps w repo name hc]
  unfold cacheDeps
  rw [hi]
  simp only [hinfo, if_false, hd, Option.getD_some, hne, parseDependsField_eq]

/-- C1 witness: a concrete snapshot where `vim` depends on
`"libc6 (>= 2.34), nano | ed"`; the theorem applies and the result
evaluates to `["libc6", "nano"]`. -/
theorem claim1_witness :
    repoW1.packages_cache ≠ [] ∧
    get_dependencies (.ok "") repoW1 "vim" = (.ok (["libc6", "nano"], repoW1), []) := by
  refine ⟨by decide, ?_⟩
  have h := claim1_direct_dependency_parsing (.ok "") repoW1 "vim" recW1
    "libc6 (>= 2.34), nano | ed" (by decide) (by decide) (by decide) (by decide)
  rw [h]
  decide

/-- C2: a package name absent from the parsed cache, or present without
a `Depends` field or with an empty one, yields the empty list, leaves
the repository unchanged and raises nothing (the result is `.ok`). -/
theorem claim2_unknown_and_leaf_empty
    (w : Except String String) (repo : PackageRepository) (name : String)
    (hc : repo.packages_cache ≠ [])
    (h : dictGet repo.packages_cache name = none ∨
         ∃ info, dictGet repo.packages_cache name = some info ∧
                 (dictGet info "Depends").getD "" = "") :
    get_dependencies w repo name = (.ok ([], repo), []) := by
  rw [cache_nonempty_gdeps w repo name hc]
  rcases h with h | ⟨info, hi, hd⟩
  · simp [cacheDeps, h]
  · unfold cacheDeps
    rw [hi]
    by_cases he : info = []
    · simp [he]
    · simp [he, hd]

/-- C2 witness: the name `b` is absent from a concrete one-package
cache; the theorem applies and returns the empty list. -/
theorem claim2_witness :
    repoW2.packages_cache ≠ [] ∧
    get_dependencies (.ok "") repoW2 "b" = (.ok ([], repoW2), []) :=
  ⟨by decide,
   claim2_unknown_and_leaf_empty (.ok "") repoW2 "b" (by decide) (Or.inl (by decide))⟩

/-- C3: with a non-empty cache, `get_dependencies` and
`get_package_info` are pure functions of the cached snapshot: the result
does not depend on the external world (no fetch), the state is returned
unchanged, and therefore two successive calls with the same name return
equal results and leave `packages_cache` unchanged. -/
theorem claim3_resolver_purity (repo : PackageRepository) (name : String)
    (hc : repo.packages_cache ≠ []) :
    ∃ r i,
      (∀ w, get_dependencies w repo name = (.ok (r, repo), [])) ∧
      (∀ w, get_package_info w repo name = (.ok (i, repo), [])) :=
  ⟨cacheDeps repo name, dictGet repo.packages_cache name,
   fun w => cache_nonempty_gdeps w repo name hc,
   fun w => cache_nonempty_gpi w repo name hc⟩

/-- C3 witness: the theorem applied to a concrete snapshot. -/
theorem claim3_witness :
    ∃ r i,
      (∀ w, get_dependencies w repoW3 "z" = (.ok (r, repoW3), [])) ∧
      (∀ w, get_package_info w repoW3 "z" = (.ok (i, repoW3), [])) :=
  claim3_resolver_purity repoW3 "z" (by decide)

/-- C6: the cache is an owned per-instance field: the constructor leaves
it empty; when it is non-empty at the time of the call,
`get_package_info` and `get_all_packages` answer from the cache with an
empty effect trace (no fetch, for every world) and return the state
unchanged; when it is empty, the call fetches (the fetch trace) and
parses the fetched file into the cache. -/
theorem claim6_owned_cache :
    (∀ u tm, (PackageRepository.init u tm).packages_cache = []) ∧
    (∀ w repo n, repo.packages_cache ≠ [] →
       get_package_info w repo n = (.ok (dictGet repo.packages_cache n, repo), [])) ∧
    (∀ w repo, repo.packages_cache ≠ [] →
       get_all_packages w repo = (.ok (repo.packages_cache.map Prod.fst, repo), [])) ∧
    (∀ repo n data, repo.packages_cache = [] →
       get_package_info (.ok data) repo n =
         (.ok (dictGet (parse_packages data) n,
               { repo with packages_cache := parse_packages data }),
          (fetch_packages_file (.ok data) repo).snd)) := by
  refine ⟨fun u tm => rfl, cache_nonempty_gpi, cache_nonempty_gall, ?_⟩
  intro repo n data hce
  unfold get_package_info fetch_packages_file
  rw [if_pos hce]
  by_cases ht : repo.test_mode
  · simp [ht]
  · simp [ht]

/-- C6 witness: a concrete instance with a non-empty cache answers from
the cache with no effects, via the theorem. -/
theorem claim6_witness :
    repoW6.packages_cache ≠ [] ∧
    get_package_info (.ok "") repoW6 "b" =
      (.ok (some [("Package", "b"), ("Depends", "c")], repoW6), []) := by
  refine ⟨by decide, ?_⟩
  rw [claim6_owned_cache.2.1 (.ok "") repoW6 "b" (by decide)]
  decide

/-! ## Claims C8, C9, C10 -/

lemma parseLine_nonblank_packages (st : ParseState) (l : String)
    (h : pyStrip l ≠ "") : (parseLine st l).packages = st.packages := by
  unfold parseLine
  rw [if_neg h]
  split
  · split <;> rfl
  · split <;> rfl

lemma foldl_parseLine_packages (ls : List String) :
    ∀ st : ParseState, (∀ l ∈ ls, pyStrip l ≠ "") →
      (ls.foldl parseLine st).packages = st.packages := by
  induction ls with
  | nil => intro st _; rfl
  | cons x t ih =>
    intro st h
    simp only [List.foldl_cons]
    rw [ih _ (fun l hl => h l (List.mem_cons_of_mem x hl)),
        parseLine_nonblank_packages st x (h x (List.mem_cons_self x t))]

/-- C8: `parse_packages` commits a record only on a blank line: a
trailing run of non-blank lines never changes the committed packages
(so a final stanza not followed by a blank line or trailing newline is
absent, even with a `Package` field, as the second conjunct shows
concretely), and a later stanza with the same `Package` name overwrites
the earlier one (third conjunct). -/
theorem claim8_parse_commit_on_blank :
    (∀ ls₁ ls₂, (∀ l ∈ ls₂, pyStrip l ≠ "") →
       parsePackagesLines (ls₁ ++ ls₂) = parsePackagesLines ls₁) ∧
    parse_packages "Package: a\nVersion: 1" = [] ∧
    parse_packages "Package: a\nVersion: 1\n\nPackage: a\nVersion: 2\n" =
      [("a", [("Package", "a"), ("Version", "2")])] := by
  refine ⟨?_, by decide, by decide⟩
  intro ls₁ ls₂ h
  unfold parsePackagesLines
  rw [List.foldl_append]
  exact foldl_parseLine_packages ls₂ _ h

/-- C8 witness: the general conjunct applied to a concrete unterminated
stanza `Package: b` after a committed one. -/
theorem claim8_witness :
    (∀ l ∈ ["Package: b"], pyStrip l ≠ "") ∧
    parsePackagesLines (["Package: a", ""] ++ ["Package: b"]) =
      parsePackagesLines ["Package: a", ""] :=
  ⟨by decide, claim8_parse_commit_on_blank.1 ["Package: a", ""] ["Package: b"] (by decide)⟩

lemma strip_empty_iff (s : String) :
    (s = "" ∨ (pyStrip s).length = 0) ↔ pyStrip s = "" := by
  constructor
  · rintro (rfl | h)
    · rfl
    · exact String.ext (List.length_eq_zero.mp h)
  · intro h
    right
    rw [h]
    rfl

/-- C9: `validate_arguments` raises `ValueError` exactly when one of the
three checks fails — package empty or whitespace-only, repository empty
or whitespace-only, or the output name lacking a valid image extension
case-insensitively — with the raised message the newline join of one
line per failed check (`failed_checks`), and returns normally (on the
unmodified arguments, the embedding being pure) otherwise. -/
theorem claim9_validate_iff (args : Args) :
    validate_arguments args =
      (if failed_checks args = [] then Except.ok ()
       else Except.error (pyJoin "\n" (failed_checks args))) ∧
    (validate_arguments args = Except.ok () ↔
      (pyStrip args.package ≠ "" ∧ pyStrip args.repository ≠ "" ∧
       (valid_extensions.any fun ext => pyEndsWith (pyLower args.output) ext) = true)) := by
  have e1 := strip_empty_iff args.package
  have e2 := strip_empty_iff args.repository
  unfold validate_arguments failed_checks
  simp only [e1, e2]
  by_cases h1 : pyStrip args.package = "" <;>
    by_cases h2 : pyStrip args.repository = "" <;>
      by_cases h3 : (valid_extensions.any fun ext => pyEndsWith (pyLower args.output) ext) = true <;>
        simp [h1, h2, h3]

lemma pyRstripSlash_append_slash (u : String) :
    pyRstripSlash (u ++ "/") = pyRstripSlash u := by
  apply String.ext
  show ((u ++ "/").data.reverse.dropWhile (fun c => c == '/')).reverse
      = (u.data.reverse.dropWhile (fun c => c == '/')).reverse
  rw [String.data_append]
  simp [List.reverse_append, List.dropWhile_cons]

lemma construct_eq_rstrip (u : String) :
    construct_packages_url u =
      pyRstripSlash u ++ "/dists/jammy/main/binary-amd64/Packages.gz" := by
  unfold construct_packages_url
  rcases h : u.data.reverse with _ | ⟨c, t⟩
  · have hu : u = "" := by
      apply String.ext
      simpa using congrArg List.reverse h
    subst hu
    rfl
  · have hrev : u.data = (c :: t).reverse := by
      have h2 := congrArg List.reverse h
      rw [List.reverse_reverse] at h2
      exact h2
    have hner : endsWithSlash u = (c == '/') := by
      unfold endsWithSlash
      rw [show u.toList = u.data from rfl, h]
    by_cases hc : c = '/'
    · subst hc
      rw [hner]
      simp only [beq_self_eq_true, if_true]
    · have hcf : (c == '/') = false := by simp [hc]
      rw [hner, hcf]
      simp only [Bool.false_eq_true, if_false]
      have hid : pyRstripSlash u = u := by
        apply String.ext
        show (u.data.reverse.dropWhile (fun c => c == '/')).reverse = u.data
        rw [h, List.dropWhile_cons, hcf]
        simp [hrev]
      rw [hid]

/-- C10: `_construct_packages_url` is insensitive to a trailing slash —
`u` and `u ++ "/"` construct the same URL — and the result is `u` with
all trailing slashes stripped, concatenated with
`/dists/jammy/main/binary-amd64/Packages.gz`. -/
theorem claim10_url_construction (u : String) :
    construct_packages_url (u ++ "/") = construct_packages_url u ∧
    construct_packages_url u =
      pyRstripSlash u ++ "/dists/jammy/main/binary-amd64/Packages.gz" := by
  refine ⟨?_, construct_eq_rstrip u⟩
  rw [construct_eq_rstrip (u ++ "/"), construct_eq_rstrip u, pyRstripSlash_append_slash]

/-! ## Claim C4 -/

lemma runDfs_mono (R : String → List String) :
    ∀ (f : Nat) (stack : List (String × List String)) (st g : GraphState),
      runDfs R f stack st = some g → ∀ f', f ≤ f' → runDfs R f' stack st = some g := by
  intro f
  induction f with
  | zero =>
    intro stack st g h
    simp [runDfs] at h
  | succ n ih =>
    intro stack st g h f' hf
    obtain ⟨m, rfl⟩ : ∃ m, f' = m + 1 := ⟨f' - 1, by omega⟩
    have hm : n ≤ m := by omega
    match stack with
    | [] =>
      rw [runDfs] at h ⊢
      exact h
    | (nd, []) :: rest =>
      rw [runDfs] at h ⊢
      exact ih _ _ _ h _ hm
    | (nd, d :: ds) :: rest =>
      rw [runDfs] at h ⊢
      by_cases h1 : d ∈ st.processed
      · rw [if_pos h1] at h ⊢
        exact ih _ _ _ h _ hm
      · rw [if_neg h1] at h ⊢
        by_cases h2 : d ∈ st.path
        · rw [if_pos h2] at h ⊢
          exact ih _ _ _ h _ hm
        · rw [if_neg h2] at h ⊢
          exact ih _ _ _ h _ hm

/-- C4: on the cyclic resolver `A→B, B→C, C→A`, `build_graph_dfs "A"`
terminates for every step budget of at least 7 (the walk takes exactly
7 steps and more fuel does not change the result), producing a graph
whose nodes are exactly `A`, `B`, `C`, with `has_cycles` true and
exactly one recorded cycle, the path `A→B→C→A`. -/
theorem claim4_cycle_termination (fuel : Nat) (hf : 7 ≤ fuel) :
    build_graph_dfs resolverABC fuel "A" = some dfsResultABC ∧
    dfsResultABC.adjacency.map Prod.fst = ["A", "B", "C"] ∧
    has_cycles dfsResultABC = true ∧
    dfsResultABC.cycles = [["A", "B", "C", "A"]] := by
  refine ⟨?_, by decide, by decide, by decide⟩
  unfold build_graph_dfs
  exact runDfs_mono resolverABC 7 _ _ dfsResultABC (by decide) fuel hf

/-- C4 witness: the theorem applied at the concrete budget 20. -/
theorem claim4_witness :
    7 ≤ 20 ∧
    (build_graph_dfs resolverABC 20 "A" = some dfsResultABC ∧
     dfsResultABC.adjacency.map Prod.fst = ["A", "B", "C"] ∧
     has_cycles dfsResultABC = true ∧
     dfsResultABC.cycles = [["A", "B", "C", "A"]]) :=
  ⟨by decide, claim4_cycle_termination 20 (by decide)⟩

/-! ## Claim C5: no file is ever written -/

lemma all_notWrite_fetch (w : Except String String) (repo : PackageRepository) :
    ((fetch_packages_file w repo).snd).all notWrite = true := by
  unfold fetch_packages_file
  split <;> simp [notWrite]

lemma all_notWrite_gpi (w : Except String String) (repo : PackageRepository)
    (n : String) : ((get_package_info w repo n).snd).all notWrite = true := by
  unfold get_package_info
  split
  · rcases hf : fetch_packages_file w repo with ⟨res, tr⟩
    have h := all_notWrite_fetch w repo
    rw [hf] at h
    rcases res with e | data <;> simpa using h
  · simp

lemma all_notWrite_gdeps (w : Except String String) (repo : PackageRepository)
    (n : String) : ((get_dependencies w repo n).snd).all notWrite = true := by
  unfold get_dependencies
  rcases hg : get_package_info w repo n with ⟨res, tr⟩
  have h := all_notWrite_gpi w repo n
  rw [hg] at h
  rcases res with e | pr
  · simpa using h
  · rcases pr with ⟨pinfo, repo'⟩
    rcases pinfo with _ | info
    · simpa using h
    · dsimp only
      split
      · simpa using h
      · split <;> simpa using h

lemma all_notWrite_print_configuration (args : Args) :
    (print_configuration args).all notWrite = true := by
  simp [print_configuration, notWrite]

lemma all_notWrite_unexpectedErr (e : String) :
    (unexpectedErr e).all notWrite = true := by
  simp [unexpectedErr, notWrite]

lemma all_notWrite_enumLines (l : List String) :
    (enumLines l).all notWrite = true := by
  rw [List.all_eq_true]
  intro x hx
  simp only [enumLines, List.mem_map] at hx
  obtain ⟨⟨n, s⟩, hmem, rfl⟩ := hx
  rfl

lemma all_notWrite_cycleLines (cs : List (List String)) :
    (cycleLines cs).all notWrite = true := by
  rw [List.all_eq_true]
  intro x hx
  simp only [cycleLines, List.mem_map] at hx
  obtain ⟨⟨n, c⟩, hmem, rfl⟩ := hx
  rfl

lemma all_notWrite_print_graph (g : GraphState) :
    (print_graph g).all notWrite = true := by
  rw [List.all_eq_true]
  intro x hx
  simp only [print_graph, List.mem_map] at hx
  obtain ⟨⟨a, b⟩, hmem, rfl⟩ := hx
  rfl

lemma all_notWrite_main (args : Args) (w : Except String String) (fuel : Nat) :
    ((main' args w fuel).snd).all notWrite = true := by
  rcases hv : validate_arguments args with e | u
  · simp [main', hv, notWrite]
  · simp only [main', hv]
    rcases hg : get_package_info w (PackageRepository.init args.repository args.test_mode)
      args.package with ⟨res, ft⟩
    have hft := all_notWrite_gpi w (PackageRepository.init args.repository args.test_mode)
      args.package
    rw [hg] at hft
    simp only at hft
    rcases res with e | pr
    · simp [List.all_append, notWrite, hft, all_notWrite_print_configuration,
        all_notWrite_unexpectedErr]
    · rcases pr with ⟨pinfo, repo1⟩
      rcases pinfo with _ | info
      · simp [List.all_append, notWrite, hft, all_notWrite_print_configuration]
      · dsimp only
        by_cases hi : info = []
        · rw [if_pos hi]
          simp [List.all_append, notWrite, hft, all_notWrite_print_configuration]
        · rw [if_neg hi]
          rcases hd : get_dependencies w repo1 args.package with ⟨dres, dt⟩
          have hdt := all_notWrite_gdeps w repo1 args.package
          rw [hd] at hdt
          simp only at hdt
          rcases dres with e | dpr
          · simp [List.all_append, notWrite, hft, hdt, all_notWrite_print_configuration,
              all_notWrite_unexpectedErr]
          · rcases dpr with ⟨dependencies, repo2⟩
            dsimp only
            rcases hb : build_graph_dfs (cacheDeps repo2) fuel args.package with _ | g
            · dsimp only
              split <;>
                simp [List.all_append, notWrite, hft, hdt, all_notWrite_print_configuration,
                  all_notWrite_unexpectedErr, all_notWrite_enumLines]
            · dsimp only
              repeat' split
              all_goals
                simp [List.all_append, notWrite, hft, hdt, all_notWrite_print_configuration,
                  all_notWrite_unexpectedErr, all_notWrite_enumLines, all_notWrite_cycleLines,
                  all_notWrite_print_graph]

/-- C5: no run of `main` ever writes a file: for every argument object
(whatever `--output` names), every world and every step budget, every
effect in the trace of `main'` satisfies `notWrite` — no `fileWrite`
effect occurs, under the output name or any other; the output name is
only validated and printed, and the graph is rendered only as `out`
console lines. -/
theorem claim5_no_image_file_written (args : Args) (w : Except String String)
    (fuel : Nat) :
    ((main' args w fuel).snd).all notWrite = true :=
  all_notWrite_main args w fuel

/-! ## Claim C7: exit codes -/

lemma gpi_fetch_error (w : Except String String) (repo : PackageRepository)
    (n : String) (e : String) (hce : repo.packages_cache = [])
    (hf : (fetch_packages_file w repo).fst = .error e) :
    get_package_info w repo n = (.error e, (fetch_packages_file w repo).snd) := by
  unfold get_package_info
  rw [if_pos hce]
  rcases hfp : fetch_packages_file w repo with ⟨res, tr⟩
  rw [hfp] at hf
  simp only at hf
  subst hf
  rfl

lemma gpi_fetch_ok (w : Except String String) (repo : PackageRepository)
    (n : String) (data : String) (hce : repo.packages_cache = [])
    (hf : (fetch_packages_file w repo).fst = .ok data) :
    get_package_info w repo n =
      (.ok (dictGet (parse_packages data) n,
            { repo with packages_cache := parse_packages data }),
       (fetch_packages_file w repo).snd) := by
  unfold get_package_info
  rw [if_pos hce]
  rcases hfp : fetch_packages_file w repo with ⟨res, tr⟩
  rw [hfp] at hf
  simp only at hf
  subst hf
  rfl

lemma gpi_empty_cases (w : Except String String) (repo : PackageRepository)
    (n : String) (hce : repo.packages_cache = []) :
    (∃ e, (fetch_packages_file w repo).fst = .error e ∧
       get_package_info w repo n = (.error e, (fetch_packages_file w repo).snd)) ∨
    (∃ data, (fetch_packages_file w repo).fst = .ok data ∧
       get_package_info w repo n =
         (.ok (dictGet (parse_packages data) n,
               { repo with packages_cache := parse_packages data }),
          (fetch_packages_file w repo).snd)) := by
  rcases hf : (fetch_packages_file w repo).fst with e | data
  · exact Or.inl ⟨e, rfl, gpi_fetch_error w repo n e hce hf⟩
  · exact Or.inr ⟨data, rfl, gpi_fetch_ok w repo n data hce hf⟩

/-- C7: every run of `main` exits 0, 1 or 2; a validation `ValueError`
yields exit 1 with the two stderr diagnostic lines; a fetch failure
(any other escaping exception) yields exit 2 with the error message on
stderr; a root package absent from the parsed repository (or falsy)
yields exit 1 after the not-found diagnostic; and exit 0 happens only
when validation passed, the fetch succeeded and the root package was
found — terminal failures never return 0. -/
theorem claim7_exit_codes (args : Args) (w : Except String String) (fuel : Nat) :
    ((main' args w fuel).fst = 0 ∨ (main' args w fuel).fst = 1 ∨ (main' args w fuel).fst = 2) ∧
    (∀ e, validate_arguments args = .error e →
       main' args w fuel = (1, [.err "\n✗ ОШИБКА ВАЛИДАЦИИ:", .err e])) ∧
    (∀ e, validate_arguments args = .ok () →
       (fetch_packages_file w (PackageRepository.init args.repository args.test_mode)).fst = .error e →
       (main' args w fuel).fst = 2 ∧ Eff.err e ∈ (main' args w fuel).snd) ∧
    (∀ data, validate_arguments args = .ok () →
       (fetch_packages_file w (PackageRepository.init args.repository args.test_mode)).fst = .ok data →
       pyTruthyRec (dictGet (parse_packages data) args.package) = false →
       (main' args w fuel).fst = 1 ∧
       Eff.out ("✗ Пакет \x27" ++ args.package ++ "\x27 не найден в репозитории") ∈
         (main' args w fuel).snd) ∧
    ((main' args w fuel).fst = 0 →
       validate_arguments args = .ok () ∧
       ∃ data,
         (fetch_packages_file w (PackageRepository.init args.repository args.test_mode)).fst = .ok data ∧
         pyTruthyRec (dictGet (parse_packages data) args.package) = true) := by
  refine ⟨?_, ?_, ?_, ?_, ?_⟩
  · rcases hv : validate_arguments args with e | u
    · simp [main', hv]
    · simp only [main', hv]
      rcases hg : get_package_info w (PackageRepository.init args.repository args.test_mode)
        args.package with ⟨res, ft⟩
      rcases res with e | ⟨pinfo, repo1⟩
      · simp
      · rcases pinfo with _ | info
        · simp
        · dsimp only
          by_cases hi : info = []
          · rw [if_pos hi]
            simp
          · rw [if_neg hi]
            rcases hd : get_dependencies w repo1 args.package with ⟨dres, dt⟩
            rcases dres with e | ⟨deps, repo2⟩
            · simp
            · dsimp only
              rcases hb : build_graph_dfs (cacheDeps repo2) fuel args.package with _ | g
              · simp
              · simp
  · intro e hv
    simp [main', hv]
  · intro e hv hf
    simp only [main', hv]
    rw [gpi_fetch_error w (PackageRepository.init args.repository args.test_mode)
      args.package e rfl hf]
    refine ⟨rfl, ?_⟩
    simp [unexpectedErr]
  · intro data hv hf hroot
    simp only [main', hv]
    rw [gpi_fetch_ok w (PackageRepository.init args.repository args.test_mode)
      args.package data rfl hf]
    rcases hpi : dictGet (parse_packages data) args.package with _ | info
    · exact ⟨rfl, by simp⟩
    · rw [hpi] at hroot
      simp only [pyTruthyRec, Bool.not_eq_false] at hroot
      have hroot' : info = [] := by simpa using hroot
      dsimp only
      rw [if_pos hroot']
      exact ⟨rfl, by simp⟩
  · intro h0
    rcases hv : validate_arguments args with e | u
    · exfalso
      simp [main', hv] at h0
    · cases u
      rcases gpi_empty_cases w (PackageRepository.init args.repository args.test_mode)
        args.package rfl with ⟨e, hfe, hge⟩ | ⟨data, hfo, hgo⟩
      · exfalso
        simp only [main', hv] at h0
        rw [hge] at h0
        simp at h0
      · refine ⟨rfl, data, hfo, ?_⟩
        simp only [main', hv] at h0
        rw [hgo] at h0
        rcases hpi : dictGet (parse_packages data) args.package with _ | info
        · rw [hpi] at h0
          simp at h0
        · by_cases hi : info = []
          · exfalso
            rw [hpi] at h0
            dsimp only at h0
            rw [if_pos hi] at h0
            simp at h0
          · simp [pyTruthyRec, hi]

/-- C7 witness: concrete arguments whose output name lacks an image
extension make validation fail; the theorem yields exit 1 with the two
diagnostic stderr lines. -/
theorem claim7_witness :
    validate_arguments argsW7 =
      .error "Имя выходного файла должно иметь одно из расширений: .png, .svg, .jpg, .jpeg" ∧
    main' argsW7 (.ok "") 5 =
      (1, [.err "\n✗ ОШИБКА ВАЛИДАЦИИ:",
           .err "Имя выходного файла должно иметь одно из расширений: .png, .svg, .jpg, .jpeg"]) :=
  ⟨by decide,
   (claim7_exit_codes argsW7 (.ok "") 5).2.1
     "Имя выходного файла должно иметь одно из расширений: .png, .svg, .jpg, .jpeg"
     (by decide)⟩
